import Mathlib

/-!
Verification of the time-series merge/reconciliation engine of
`samsmart_pd_boxes` (file `src/samsmart_pd_boxes/etl.py` and the data model of
`src/resources/__init__.py`), via a shallow embedding in Lean.

Timestamps are modelled as natural numbers (epoch offsets), sensor values as
integers, a missing cell (pandas `NaN`) as `Option.none`, and a raised Python
exception as `Except.error`.  Pandas `groupby` sorts its group keys in
ascending order and a pandas outer join produces the sorted union of the
indexes; both are reflected by sorting the deduplicated key list.
-/

/-- `Koffer = Literal["koffer1", "koffer2"]` from `resources/__init__.py`. -/
inductive Koffer where
  | koffer1 : Koffer
  | koffer2 : Koffer
deriving DecidableEq

/-- The `Timeframe` pydantic model of `resources/__init__.py`: a tag, a source
device, and inclusive lower/upper bound instants. -/
structure Timeframe where
  tag : String
  source : Koffer
  oldest_record : Nat
  newest_record : Nat
deriving DecidableEq

/-- The `Household` pydantic model: an owning list of timeframes. -/
structure Household where
  timeframes : List Timeframe
deriving DecidableEq

/-- A raw single-sensor DataFrame as consumed by `merge`: a `"timestamp"`
column plus exactly one value column whose name is the sensor label.  The
two-column shape that `merge` asserts (`len(cols) == 2`,
`cols[0] == "timestamp"`) holds by construction of this type. -/
structure RawDF where
  label : String
  rows : List (Nat × Int)
deriving DecidableEq

/-- A timestamp-indexed single-sensor DataFrame (output of
`index_by_timestamp`): the sensor label plus rows keyed by a unique
timestamp. -/
structure IndexedDF where
  label : String
  rows : List (Nat × Int)
deriving DecidableEq

/-- A wide DataFrame indexed by timestamp: one column label per sensor and,
for each timestamp, one stored cell per sensor, `none` standing for pandas
`NaN`. -/
structure WideDF where
  cols : List String
  rows : List (Nat × List (Option Int))
deriving DecidableEq

/-- Sorted list of the distinct elements of `l`, in ascending order.  This is
the key set a pandas `groupby` produces (group keys are unique and returned
sorted). -/
def sortedKeys (l : List Nat) : List Nat :=
  List.insertionSort (· ≤ ·) l.dedup

/-- The values of the group of rows of `df` sharing the timestamp `t`, in
input order (pandas `groupby` preserves the within-group order). -/
def groupValues (df : List (Nat × Int)) (t : Nat) : List Int :=
  (df.filter (fun r => r.1 == t)).map Prod.snd

/-- `index_by_timestamp` (etl.py, lines 464-506): group the rows of the
two-column DataFrame by exact equality on the `"timestamp"` column, reduce
each group's values with `aggregation_function`, and key the result by the
(unique, sorted) timestamps.  The subsequent
`set_index("timestamp", verify_integrity=True)` cannot fail after the
grouping, so the `ValueError` branch is unreachable and the result is total. -/
def index_by_timestamp (aggregation_function : List Int → Int)
    (df : List (Nat × Int)) : List (Nat × Int) :=
  (sortedKeys (df.map Prod.fst)).map
    (fun t => (t, aggregation_function (groupValues df t)))

/-- The duplicate count `index_by_timestamp` logs when de-duplication was
necessary: `len(df) - len(indexed_df)` (etl.py, lines 495-499). -/
def reportedDuplicates (aggregation_function : List Int → Int)
    (df : List (Nat × Int)) : Nat :=
  df.length - (index_by_timestamp aggregation_function df).length

lemma sortedKeys_nodup (l : List Nat) : (sortedKeys l).Nodup :=
  (List.perm_insertionSort _ _).nodup_iff.mpr (List.nodup_dedup l)

lemma mem_sortedKeys {t : Nat} {l : List Nat} : t ∈ sortedKeys l ↔ t ∈ l :=
  (List.perm_insertionSort _ _).mem_iff.trans List.mem_dedup

lemma sortedKeys_length (l : List Nat) : (sortedKeys l).length = l.dedup.length :=
  (List.perm_insertionSort _ _).length_eq

lemma sortedKeys_sorted (l : List Nat) : (sortedKeys l).Sorted (· ≤ ·) :=
  List.sorted_insertionSort _ _

lemma map_fst_index_by_timestamp (f : List Int → Int) (df : List (Nat × Int)) :
    (index_by_timestamp f df).map Prod.fst = sortedKeys (df.map Prod.fst) := by
  simp [index_by_timestamp, Function.comp_def]

lemma dedup_length_lt_of_not_nodup {l : List Nat} (h : ¬ l.Nodup) :
    l.dedup.length < l.length := by
  rcases Nat.lt_or_ge l.dedup.length l.length with hlt | hge
  · exact hlt
  · exfalso
    have hs : List.Sublist l.dedup l := List.dedup_sublist l
    have heq : l.dedup = l := hs.eq_of_length_le hge
    exact h (List.dedup_eq_self.mp heq)

/-- **C1.** For every input DataFrame whose `"timestamp"` column contains
duplicates, `index_by_timestamp` returns one row per distinct timestamp (the
output keys are duplicate-free and a timestamp appears in the output exactly
when it appears in the input), and the duplicate count it logs equals the
length of the input minus the length of the output (and is positive, so the
message is actually emitted). -/
theorem C1_index_dedup (f : List Int → Int) (df : List (Nat × Int))
    (hdup : ¬ (df.map Prod.fst).Nodup) :
    ((index_by_timestamp f df).map Prod.fst).Nodup ∧
    (∀ t, t ∈ (index_by_timestamp f df).map Prod.fst ↔ t ∈ df.map Prod.fst) ∧
    reportedDuplicates f df = df.length - (index_by_timestamp f df).length ∧
    0 < reportedDuplicates f df := by
  refine ⟨?_, ?_, rfl, ?_⟩
  · rw [map_fst_index_by_timestamp]
    exact sortedKeys_nodup _
  · intro t
    rw [map_fst_index_by_timestamp]
    exact mem_sortedKeys
  · have hlen : (index_by_timestamp f df).length = (df.map Prod.fst).dedup.length := by
      have := congrArg List.length (map_fst_index_by_timestamp f df)
      simpa [sortedKeys_length] using this
    have hlt : (df.map Prod.fst).dedup.length < (df.map Prod.fst).length :=
      dedup_length_lt_of_not_nodup hdup
    simp only [reportedDuplicates, hlen]
    simp only [List.length_map] at hlt ⊢
    omega

/-- Witness for C1 at the concrete input `[(5, 1), (5, 2), (3, 7)]`, whose
timestamp column has a duplicate. -/
theorem C1_index_dedup_witness :
    ((index_by_timestamp (fun vs => vs.headD 0) [(5, 1), (5, 2), (3, 7)]).map
        Prod.fst).Nodup ∧
    (∀ t, t ∈ (index_by_timestamp (fun vs => vs.headD 0)
        [(5, 1), (5, 2), (3, 7)]).map Prod.fst ↔
      t ∈ ([(5, 1), (5, 2), (3, 7)] : List (Nat × Int)).map Prod.fst) ∧
    reportedDuplicates (fun vs => vs.headD 0) [(5, 1), (5, 2), (3, 7)] =
      ([(5, 1), (5, 2), (3, 7)] : List (Nat × Int)).length -
        (index_by_timestamp (fun vs => vs.headD 0) [(5, 1), (5, 2), (3, 7)]).length ∧
    0 < reportedDuplicates (fun vs => vs.headD 0) [(5, 1), (5, 2), (3, 7)] :=
  C1_index_dedup (fun vs => vs.headD 0) [(5, 1), (5, 2), (3, 7)] (by decide)

lemma sortedKeys_eq_self {l : List Nat} (hnd : l.Nodup)
    (hs : l.Sorted (· ≤ ·)) : sortedKeys l = l := by
  unfold sortedKeys
  rw [List.dedup_eq_self.mpr hnd]
  exact hs.insertionSort_eq

lemma groupValues_keyed (g : Nat → Int) (ks : List Nat) (hnd : ks.Nodup)
    (u : Nat) :
    groupValues (ks.map (fun t => (t, g t))) u =
      if u ∈ ks then [g u] else [] := by
  induction ks with
  | nil => simp [groupValues]
  | cons k ks ih =>
    rw [List.nodup_cons] at hnd
    by_cases hku : k = u
    · subst hku
      have h0 : groupValues (ks.map (fun t => (t, g t))) k = [] := by
        rw [ih hnd.2]
        simp [hnd.1]
      simp only [groupValues, List.map_cons, List.filter_cons] at h0 ⊢
      simp only [beq_self_eq_true, if_pos, List.map_cons, List.mem_cons,
        true_or, if_true]
      simpa [groupValues] using h0
    · have hbe : (k == u) = false := beq_eq_false_iff_ne.mpr hku
      simp only [groupValues, List.map_cons, List.filter_cons, hbe,
        Bool.false_eq_true, if_false]
      have h1 := ih hnd.2
      simp only [groupValues] at h1
      rw [h1]
      simp [List.mem_cons, Ne.symm hku]

/-- **C7.** The Timestamp Indexer is idempotent: if the timestamps of the
input are already unique, `index_by_timestamp` is a no-op up to identity of
the key set (the output keys are a permutation of the input keys), and
re-running `index_by_timestamp` on its own output yields the same output.
The aggregation rule is assumed idempotent on singleton groups
(`f [x] = x`), which holds for the rules the code uses (`"first"`, mean,
sum, ...). -/
theorem C7_index_idempotent (f : List Int → Int) (df : List (Nat × Int))
    (hunique : (df.map Prod.fst).Nodup) (hf : ∀ x : Int, f [x] = x) :
    ((index_by_timestamp f df).map Prod.fst).Perm (df.map Prod.fst) ∧
    index_by_timestamp f (index_by_timestamp f df) = index_by_timestamp f df := by
  constructor
  · rw [map_fst_index_by_timestamp]
    unfold sortedKeys
    rw [List.dedup_eq_self.mpr hunique]
    exact List.perm_insertionSort _ _
  · have key : sortedKeys ((index_by_timestamp f df).map Prod.fst) =
        sortedKeys (df.map Prod.fst) := by
      rw [map_fst_index_by_timestamp,
        sortedKeys_eq_self (sortedKeys_nodup _) (sortedKeys_sorted _)]
    show (sortedKeys ((index_by_timestamp f df).map Prod.fst)).map
        (fun t => (t, f (groupValues (index_by_timestamp f df) t))) =
      index_by_timestamp f df
    rw [key]
    show _ = (sortedKeys (df.map Prod.fst)).map
        (fun t => (t, f (groupValues df t)))
    apply List.map_congr_left
    intro u hu
    have hg := groupValues_keyed (fun t => f (groupValues df t))
      (sortedKeys (df.map Prod.fst)) (sortedKeys_nodup _) u
    rw [if_pos hu] at hg
    have hg' : groupValues (index_by_timestamp f df) u = [f (groupValues df u)] := hg
    simp only [hg', hf]

/-- Witness for C7 at the concrete duplicate-free input `[(2, 5), (1, 4)]`
with the `"first"` aggregation rule. -/
theorem C7_index_idempotent_witness :
    ((index_by_timestamp (fun vs => vs.headD 0) [(2, 5), (1, 4)]).map
        Prod.fst).Perm (([(2, 5), (1, 4)] : List (Nat × Int)).map Prod.fst) ∧
    index_by_timestamp (fun vs => vs.headD 0)
        (index_by_timestamp (fun vs => vs.headD 0) [(2, 5), (1, 4)]) =
      index_by_timestamp (fun vs => vs.headD 0) [(2, 5), (1, 4)] :=
  C7_index_idempotent (fun vs => vs.headD 0) [(2, 5), (1, 4)] (by decide)
    (fun x => rfl)

/-- `outer_join_by_timestamp` (etl.py, lines 508-529): full outer join of the
timestamp-indexed single-sensor DataFrames on their index.  The result's
index is the sorted union of the inputs' timestamp sets (pandas sorts the
union on an outer join), its columns follow the input list order, and each
cell holds the sensor's value at that timestamp if present and `NaN`
(`none`) otherwise.  For the empty input list the code returns
`pd.DataFrame()`: zero rows and zero columns, which this definition also
produces. -/
def outer_join_by_timestamp (dfs : List IndexedDF) : WideDF where
  cols := dfs.map IndexedDF.label
  rows :=
    (sortedKeys ((dfs.map (fun d => d.rows.map Prod.fst)).flatten)).map
      (fun t => (t, dfs.map (fun d => d.rows.lookup t)))

lemma lookup_eq_none_iff (l : List (Nat × Int)) (t : Nat) :
    l.lookup t = none ↔ t ∉ l.map Prod.fst := by
  induction l with
  | nil => simp
  | cons p l ih =>
    obtain ⟨k, v⟩ := p
    by_cases hk : t = k
    · subst hk
      simp [List.lookup]
    · have hbe : (t == k) = false := beq_eq_false_iff_ne.mpr hk
      simp [List.lookup, hbe, ih, hk]

/-- **C2.** `outer_join_by_timestamp` produces a table whose timestamp index
is exactly the union of the inputs' timestamp sets, whose columns are the
input labels in order, and whose every cell is the sensor's looked-up value —
`none` (the explicit missing marker) precisely when that sensor has no sample
at that timestamp; and the empty input list yields the empty table with zero
rows and zero columns rather than an error. -/
theorem C2_outer_join (dfs : List IndexedDF) :
    (outer_join_by_timestamp dfs).cols = dfs.map IndexedDF.label ∧
    (∀ t, t ∈ (outer_join_by_timestamp dfs).rows.map Prod.fst ↔
      ∃ d ∈ dfs, t ∈ d.rows.map Prod.fst) ∧
    (∀ t cells, (t, cells) ∈ (outer_join_by_timestamp dfs).rows →
      cells = dfs.map (fun d => d.rows.lookup t) ∧
      ∀ d ∈ dfs, (d.rows.lookup t = none ↔ t ∉ d.rows.map Prod.fst)) ∧
    (outer_join_by_timestamp ([] : List IndexedDF)).cols = [] ∧
    (outer_join_by_timestamp ([] : List IndexedDF)).rows = [] := by
  have hrows : (outer_join_by_timestamp dfs).rows =
      (sortedKeys ((dfs.map (fun d => d.rows.map Prod.fst)).flatten)).map
        (fun t => (t, dfs.map (fun d => d.rows.lookup t))) := rfl
  refine ⟨rfl, ?_, ?_, rfl, rfl⟩
  · intro t
    have hfst : (outer_join_by_timestamp dfs).rows.map Prod.fst =
        sortedKeys ((dfs.map (fun d => d.rows.map Prod.fst)).flatten) := by
      rw [hrows]
      simp [List.map_map, Function.comp_def]
    rw [hfst, mem_sortedKeys, List.mem_flatten]
    constructor
    · rintro ⟨ks, hks, htks⟩
      obtain ⟨d, hd, rfl⟩ := List.mem_map.mp hks
      exact ⟨d, hd, htks⟩
    · rintro ⟨d, hd, htd⟩
      exact ⟨d.rows.map Prod.fst, List.mem_map.mpr ⟨d, hd, rfl⟩, htd⟩
  · intro t cells hmem
    rw [hrows] at hmem
    obtain ⟨u, _, hut⟩ := List.mem_map.mp hmem
    have hu : u = t := congrArg Prod.fst hut
    subst hu
    refine ⟨(congrArg Prod.snd hut).symm, ?_⟩
    intro d _
    exact lookup_eq_none_iff d.rows u

/-- Witness for C2 at the spec's concrete example: sensor `A` with
timestamps `{1, 2}` and sensor `B` with timestamps `{2, 3}`. -/
theorem C2_outer_join_witness :
    (2 ∈ (outer_join_by_timestamp
        [⟨"A", [(1, 10), (2, 20)]⟩, ⟨"B", [(2, 30), (3, 40)]⟩]).rows.map
        Prod.fst) ∧
    (outer_join_by_timestamp
        [⟨"A", [(1, 10), (2, 20)]⟩, ⟨"B", [(2, 30), (3, 40)]⟩]).cols =
      ["A", "B"] :=
  ⟨((C2_outer_join [⟨"A", [(1, 10), (2, 20)]⟩, ⟨"B", [(2, 30), (3, 40)]⟩]).2.1
      2).mpr ⟨⟨"A", [(1, 10), (2, 20)]⟩, by decide, by decide⟩,
    (C2_outer_join [⟨"A", [(1, 10), (2, 20)]⟩, ⟨"B", [(2, 30), (3, 40)]⟩]).1⟩

/-- The `"first"` pandas aggregation rule: take the first value of the group
(groups arising in `index_by_timestamp` are never empty, so the default
value of `headD` is never consulted there). -/
def firstAgg : List Int → Int := fun vs => vs.headD 0

/-- `merge` (etl.py, lines 532-570): for each raw two-column table, look up
its sensor label in `aggregation_functions` — defaulting to `"first"`
(`dict.get(cols[1], "first")`) when the label is absent — run
`index_by_timestamp` with the resolved rule, and outer-join the indexed
results in input order.  A `None` mapping in the code is replaced by `{}`,
which is the empty list here.  The code's `assert len(cols) == 2` and
`assert cols[0] == "timestamp"` hold by construction of `RawDF`. -/
def merge (dfs : List RawDF)
    (aggregation_functions : List (String × (List Int → Int))) : WideDF :=
  outer_join_by_timestamp (dfs.map (fun df =>
    { label := df.label
      rows := index_by_timestamp
        ((aggregation_functions.lookup df.label).getD firstAgg) df.rows }))

/-- **C8.** For a raw two-column table whose sensor label is absent from the
aggregation mapping (including the empty mapping), `merge` succeeds without
raising and uses the `"first"` aggregation rule for that sensor: the result
is the one obtained by indexing the table with `firstAgg` and joining. -/
theorem C8_merge_default_first (df : RawDF)
    (aggregation_functions : List (String × (List Int → Int)))
    (habsent : aggregation_functions.lookup df.label = none) :
    merge [df] aggregation_functions =
      outer_join_by_timestamp
        [{ label := df.label, rows := index_by_timestamp firstAgg df.rows }] := by
  simp [merge, habsent]

/-- Witness for C8: a raw table for the unconfigured sensor label
`"Gas"` merged with the empty aggregation mapping. -/
theorem C8_merge_default_first_witness :
    merge [⟨"Gas", [(1, 2), (1, 3)]⟩] [] =
      outer_join_by_timestamp
        [{ label := "Gas",
           rows := index_by_timestamp firstAgg [(1, 2), (1, 3)] }] :=
  C8_merge_default_first ⟨"Gas", [(1, 2), (1, 3)]⟩ [] rfl

/-- `_round_timestamps` (etl.py, lines 623-626): floor a timestamp to the
left edge of its bin by integer-dividing its epoch offset by the bin
width's epoch length and multiplying back
(`(timestamps.value // td.value) * td.value`). -/
def round_timestamps (timestamps : Nat) (timedelta : Nat) : Nat :=
  (timestamps / timedelta) * timedelta

/-- `downsample` (etl.py, lines 594-620): group the rows of the wide table by
the rounded timestamp and reduce every column of each group with the one
`aggregation_function` (applied per column to the group's cells; pandas
sorts the group keys).  Bins no input row falls into never appear. -/
def downsample (joined_df : WideDF) (timedelta : Nat)
    (aggregation_function : List (Option Int) → Option Int) : WideDF where
  cols := joined_df.cols
  rows :=
    (sortedKeys (joined_df.rows.map (fun r => round_timestamps r.1 timedelta))).map
      (fun b => (b, (List.range joined_df.cols.length).map (fun j =>
        aggregation_function ((joined_df.rows.filter
          (fun r => round_timestamps r.1 timedelta == b)).map
            (fun r => r.2.getD j none)))))

/-- The pandas `"sum"` aggregation over one column of a group: the sum of the
non-`NaN` values (`skipna=True`; an all-`NaN` group sums to `0`). -/
def sumAgg : List (Option Int) → Option Int :=
  fun cells => some (cells.filterMap id).sum

/-- **C3, counterexample.** In the claim's concrete example the two rows do
NOT share a bin: 00:01:10 is epoch offset 70 s and with bin width
"1min" = 60 s the code computes `(70 // 60) * 60 = 60`, i.e. bin
[00:01, 00:02), not [00:00, 00:01); the output row at key 00:00 holds only
the first row's value, not the sum of both. -/
theorem C3_downsample_counterexample :
    round_timestamps 70 60 = 60 ∧ (60 : Nat) ≠ 0 ∧
    round_timestamps 30 60 = 0 ∧
    (downsample ⟨["power"], [(30, [some 1]), (70, [some 2])]⟩ 60 sumAgg).rows =
      [(0, [some 1]), (60, [some 2])] ∧
    (downsample ⟨["power"], [(30, [some 1]), (70, [some 2])]⟩ 60
        sumAgg).rows.lookup 0 ≠ some [some (1 + 2)] := by
  refine ⟨rfl, by decide, rfl, by decide, by decide⟩

/-- **C3, amended.** Every input row is mapped to the bin whose left edge is
the row's epoch offset integer-divided by the bin width's length and
multiplied back — the output bin keys are exactly the (sorted, distinct)
rounded input timestamps. In the concrete example the rows at 00:00:30 and
00:01:10 with bin width "1min" fall in bins [00:00, 00:01) and
[00:01, 00:02) respectively, and with aggregation "sum" the output rows at
keys 00:00 and 00:01 each hold the respective single row's value.  An empty
input table downsamples to an empty output with no synthetic bins. -/
theorem C3_downsample_amended (w : WideDF) (td : Nat)
    (agg : List (Option Int) → Option Int) :
    (∀ t, round_timestamps t td = (t / td) * td) ∧
    (downsample w td agg).rows.map Prod.fst =
      sortedKeys (w.rows.map (fun r => round_timestamps r.1 td)) ∧
    (downsample ⟨["power"], [(30, [some 1]), (70, [some 2])]⟩ 60 sumAgg).rows =
      [(0, [some 1]), (60, [some 2])] ∧
    (downsample ⟨w.cols, []⟩ td agg).rows = [] := by
  refine ⟨fun t => rfl, ?_, by decide, ?_⟩
  · simp [downsample, List.map_map, Function.comp_def]
  · simp [downsample, sortedKeys]

/-- `timeframes_by_source` (etl.py, lines 648-672): group all timeframes of
all households by their source box, appending in iteration order.  The
result models the dict `{koffer1: [...], koffer2: [...]}` as a pair
(first component `koffer1`, second `koffer2`). -/
def timeframes_by_source (households : List Household) :
    List Timeframe × List Timeframe :=
  households.foldl (fun tbs h =>
    h.timeframes.foldl (fun tbs tf =>
      match tf.source with
      | .koffer1 => (tbs.1 ++ [tf], tbs.2)
      | .koffer2 => (tbs.1, tbs.2 ++ [tf])) tbs) ([], [])

/-- The adjacent-pair walk of `check_households` (etl.py, lines 699-705):
raise (`Except.error`, carrying the two offending timeframes named in the
`ValueError` message) as soon as an adjacent pair satisfies
`t1.newest_record > t2.oldest_record`. -/
def scanAdjacent : List Timeframe → Except (Timeframe × Timeframe) Unit
  | t1 :: t2 :: rest =>
    if t1.newest_record > t2.oldest_record then .error (t1, t2)
    else scanAdjacent (t2 :: rest)
  | _ => .ok ()

/-- The in-place `timeframes.sort(key=lambda tf: tf.newest_record)` of
`check_households`: Python's stable sort by `newest_record`, modelled by the
(stable) insertion sort. -/
def sortByNewest (timeframes : List Timeframe) : List Timeframe :=
  List.insertionSort (fun a b => a.newest_record ≤ b.newest_record) timeframes

/-- `check_households` (etl.py, lines 675-706): group the timeframes by
source, sort each group ascending by `newest_record`, and walk adjacent
pairs, failing on the first pair with
`t1.newest_record > t2.oldest_record` (the `koffer1` group is scanned
first, matching the dict's insertion order). -/
def check_households (households : List Household) :
    Except (Timeframe × Timeframe) Unit :=
  let tbs := timeframes_by_source households
  match scanAdjacent (sortByNewest tbs.1) with
  | .error e => .error e
  | .ok () => scanAdjacent (sortByNewest tbs.2)

/-- **C4.** For two timeframes of the same source with bounds
(Day1, Day3) and (Day2, Day4) — the first's `newest_record` (Day3) exceeds
the second's `oldest_record` (Day2) — `check_households` raises, naming the
two offending timeframes; for the same two bounds on different sources it
does not raise. -/
theorem C4_overlap_detection :
    check_households
        [⟨[⟨"h1", .koffer1, 1, 3⟩, ⟨"h2", .koffer1, 2, 4⟩]⟩] =
      .error (⟨"h1", .koffer1, 1, 3⟩, ⟨"h2", .koffer1, 2, 4⟩) ∧
    check_households
        [⟨[⟨"h1", .koffer1, 1, 3⟩, ⟨"h2", .koffer2, 2, 4⟩]⟩] = .ok () := by
  exact ⟨rfl, rfl⟩

/-- Two timeframes overlap when their closed time windows share more than a
boundary instant; with the code's strict test this is
`max(oldest, oldest) < min(newest, newest)`. -/
def overlaps (t u : Timeframe) : Prop :=
  max t.oldest_record u.oldest_record < min t.newest_record u.newest_record

instance (t u : Timeframe) : Decidable (overlaps t u) := by
  unfold overlaps
  infer_instance

lemma scanAdjacent_ok (l : List Timeframe) (h : scanAdjacent l = .ok ()) :
    l.Chain' (fun a b => a.newest_record ≤ b.oldest_record) := by
  induction l with
  | nil => exact List.chain'_nil
  | cons t1 rest ih =>
    cases rest with
    | nil => exact List.chain'_singleton t1
    | cons t2 rest' =>
      rw [scanAdjacent] at h
      by_cases hc : t1.newest_record > t2.oldest_record
      · rw [if_pos hc] at h
        exact absurd h (by simp)
      · rw [if_neg hc] at h
        exact List.chain'_cons.mpr ⟨Nat.le_of_not_lt hc, ih h⟩

lemma pairwise_newest_le_oldest (l : List Timeframe)
    (hsorted : l.Pairwise (fun a b => a.newest_record ≤ b.newest_record))
    (hchain : l.Chain' (fun a b => a.newest_record ≤ b.oldest_record)) :
    l.Pairwise (fun a b => a.newest_record ≤ b.oldest_record) := by
  induction l with
  | nil => exact List.Pairwise.nil
  | cons x xs ih =>
    rw [List.pairwise_cons] at hsorted
    cases xs with
    | nil => simp
    | cons y ys =>
      rw [List.chain'_cons] at hchain
      have htail := ih hsorted.2 hchain.2
      rw [List.pairwise_cons]
      refine ⟨?_, htail⟩
      intro b hb
      rcases List.mem_cons.mp hb with hby | hbys
      · subst hby
        exact hchain.1
      · have h1 : x.newest_record ≤ y.newest_record :=
          hsorted.1 y (List.mem_cons_self y ys)
        have h2 : y.newest_record ≤ b.oldest_record :=
          (List.pairwise_cons.mp htail).1 b hbys
        exact Nat.le_trans h1 h2

/-- **C5.** The adjacent-pair scan is complete: for any list of timeframes
sorted ascending by `newest_record`, if the scan finds no adjacent pair with
`earlier.newest_record > later.oldest_record` (it returns `ok`), then no
pair of timeframes anywhere in the list overlaps. -/
theorem C5_scan_complete (l : List Timeframe)
    (hsorted : l.Pairwise (fun a b => a.newest_record ≤ b.newest_record))
    (hscan : scanAdjacent l = .ok ()) :
    l.Pairwise (fun a b => ¬ overlaps a b) := by
  have hp := pairwise_newest_le_oldest l hsorted (scanAdjacent_ok l hscan)
  refine hp.imp ?_
  intro a b hab hov
  unfold overlaps at hov
  omega

/-- Witness for C5 on the concrete sorted list
`[(0, 1), (1, 2), (2, 3)]` of same-source timeframes. -/
theorem C5_scan_complete_witness :
    ([⟨"a", .koffer1, 0, 1⟩, ⟨"b", .koffer1, 1, 2⟩,
      ⟨"c", .koffer1, 2, 3⟩] : List Timeframe).Pairwise
      (fun a b => ¬ overlaps a b) :=
  C5_scan_complete _ (by decide) rfl

/-- **C6.** Two timeframes of the same source that touch exactly at a
boundary instant (`t1.newest_record = t2.oldest_record`) are treated as
non-overlapping: `check_households` does not raise, because the overlap test
`t1.newest_record > t2.oldest_record` is strict. -/
theorem C6_touching_not_overlap (tag1 tag2 : String) (o1 n1 n2 : Nat)
    (horder : n1 ≤ n2) :
    check_households [⟨[⟨tag1, .koffer1, o1, n1⟩, ⟨tag2, .koffer1, n1, n2⟩]⟩] =
      .ok () := by
  simp [check_households, timeframes_by_source, sortByNewest, scanAdjacent,
    List.insertionSort, List.orderedInsert, horder]

/-- Witness for C6: timeframes (Day1, Day2) and (Day2, Day3) of the same
source, touching at Day2, pass the check. -/
theorem C6_touching_not_overlap_witness :
    check_households [⟨[⟨"h1", .koffer1, 1, 2⟩, ⟨"h2", .koffer1, 2, 3⟩]⟩] =
      .ok () :=
  C6_touching_not_overlap "h1" "h2" 1 2 3 (by decide)

/-- `[0-9]+`: one or more characters, all decimal digits. -/
def digits1 (s : List Char) : Bool :=
  !s.isEmpty && s.all (fun c => c.isDigit)

/-- An anchored regex of the shape `^<p>[0-9]+$` (as compiled in
`_check_tag`): the string starts with the literal `p` and continues with one
or more digits. -/
def matchNumbered (p : String) (s : List Char) : Bool :=
  decide (s.take p.length = p.data) && digits1 (s.drop p.length)

/-- `_check_tag` (etl.py, lines 261-272): a tag is valid if it is
`"koffer1"` or `"koffer2"`, or matches `^ssh[0-9]+$`, or matches
`^haushalt[0-9]+$`; otherwise `ValueError(f"Tag {tag} is not valid.")` is
raised. -/
def check_tag (tag : String) : Except String Unit :=
  if tag == "koffer1" || tag == "koffer2" || matchNumbered "ssh" tag.data
      || matchNumbered "haushalt" tag.data
  then .ok ()
  else .error ("Tag " ++ tag ++ " is not valid.")

/-- The acceptance set as the claim words it: the two fixed device labels,
a numbered `ssh<N>` tag, or a numbered `household<N>` tag. -/
def claimAcceptsTag (tag : String) : Bool :=
  tag == "koffer1" || tag == "koffer2" || matchNumbered "ssh" tag.data
    || matchNumbered "household" tag.data

/-- The spec-level statement that `tag` is the literal `p` followed by one
or more digits. -/
def numberedTag (p tag : String) : Prop :=
  ∃ ds : List Char, ds ≠ [] ∧ (∀ c ∈ ds, c.isDigit = true) ∧
    tag.data = p.data ++ ds

/-- **C9, counterexample.** The code's numbered pattern is `haushalt<N>`,
not `household<N>`: the tag `"household1"` lies in the claim's acceptance
set yet `_check_tag` rejects it with `ValueError`, and `"haushalt1"` lies
outside the claim's acceptance set yet `_check_tag` accepts it. -/
theorem C9_tag_counterexample :
    claimAcceptsTag "household1" = true ∧
    check_tag "household1" = .error ("Tag household1 is not valid.") ∧
    claimAcceptsTag "haushalt1" = false ∧
    check_tag "haushalt1" = .ok () :=
  ⟨rfl, rfl, rfl, rfl⟩

lemma digits1_iff (s : List Char) :
    digits1 s = true ↔ s ≠ [] ∧ ∀ c ∈ s, c.isDigit = true := by
  simp [digits1, List.isEmpty_iff]

lemma matchNumbered_iff (p : String) (s : List Char) :
    matchNumbered p s = true ↔
      ∃ ds : List Char, ds ≠ [] ∧ (∀ c ∈ ds, c.isDigit = true) ∧
        s = p.data ++ ds := by
  unfold matchNumbered
  rw [Bool.and_eq_true, decide_eq_true_eq, digits1_iff]
  constructor
  · rintro ⟨htake, hne, hdig⟩
    refine ⟨s.drop p.length, hne, hdig, ?_⟩
    conv_lhs => rw [← List.take_append_drop p.length s]
    rw [htake]
  · rintro ⟨ds, hne, hdig, rfl⟩
    have hlen : p.length = p.data.length := rfl
    rw [hlen, List.take_left, List.drop_left]
    exact ⟨rfl, hne, hdig⟩

/-- **C9, amended.** `_check_tag` accepts a tag if and only if it is one of
the two fixed device labels `"koffer1"`, `"koffer2"` or matches a numbered
`ssh<N>` or `haushalt<N>` pattern, and it fails with `ValueError` for every
other string. -/
theorem C9_tag_amended (tag : String) :
    (check_tag tag = .ok () ↔
      tag = "koffer1" ∨ tag = "koffer2" ∨ numberedTag "ssh" tag ∨
        numberedTag "haushalt" tag) ∧
    (check_tag tag = .ok () ∨
      check_tag tag = .error ("Tag " ++ tag ++ " is not valid.")) := by
  have hcond : check_tag tag = .ok () ↔
      (tag == "koffer1" || tag == "koffer2" || matchNumbered "ssh" tag.data
        || matchNumbered "haushalt" tag.data) = true := by
    unfold check_tag
    by_cases hc : (tag == "koffer1" || tag == "koffer2"
        || matchNumbered "ssh" tag.data || matchNumbered "haushalt" tag.data) = true
    · rw [if_pos hc]
      simp [hc]
    · rw [if_neg hc]
      simp [hc]
  constructor
  · rw [hcond]
    simp only [Bool.or_eq_true, beq_iff_eq, matchNumbered_iff, numberedTag]
    constructor
    · rintro (((h | h) | h) | h)
      · exact Or.inl h
      · exact Or.inr (Or.inl h)
      · exact Or.inr (Or.inr (Or.inl h))
      · exact Or.inr (Or.inr (Or.inr h))
    · rintro (h | h | h | h)
      · exact Or.inl (Or.inl (Or.inl h))
      · exact Or.inl (Or.inl (Or.inr h))
      · exact Or.inl (Or.inr h)
      · exact Or.inr h
  · unfold check_tag
    by_cases hc : (tag == "koffer1" || tag == "koffer2"
        || matchNumbered "ssh" tag.data || matchNumbered "haushalt" tag.data) = true
    · rw [if_pos hc]
      exact Or.inl rfl
    · rw [if_neg hc]
      exact Or.inr rfl

/-- Models the `Timeframe` constructor of `resources/__init__.py` (lines
11-15).  The field default `newest_record: datetime = datetime.now()` is a
Python default VALUE: `datetime.now()` is evaluated exactly once, when the
class body executes at module import, and that fixed instant
(`classDefinitionNow`) is the default for every construction that leaves
`newest_record` unset.  The wall clock at the moment of the constructor
call (`constructionNow`) never enters the result. -/
def mkTimeframe (classDefinitionNow : Nat) (tag : String) (source : Koffer)
    (oldest_record : Nat) (newest_record : Option Nat)
    (_constructionNow : Nat) : Timeframe :=
  { tag := tag, source := source, oldest_record := oldest_record,
    newest_record := newest_record.getD classDefinitionNow }

/-- **C10.** Evaluating the constructor at the failing input: with the class
defined at instant 100, two Timeframes constructed without an explicit
`newest_record` at the distinct later instants 101 and 102 both receive
`newest_record = 100` — the import-time constant — so, contrary to the
claim, the implicit upper bound is not the wall-clock time at construction
and the two bounds are equal, not different. -/
theorem C10_default_newest_fixed :
    (mkTimeframe 100 "h1" .koffer1 0 none 101).newest_record = 100 ∧
    (mkTimeframe 100 "h2" .koffer1 0 none 102).newest_record = 100 ∧
    (mkTimeframe 100 "h1" .koffer1 0 none 101).newest_record =
      (mkTimeframe 100 "h2" .koffer1 0 none 102).newest_record :=
  ⟨rfl, rfl, rfl⟩
